import Mathlib

/-!
Verification of the Job Hunter worker (worker/main.py): the scrape-score-notify
pipeline orchestrator.  External collaborators (scrape_all, classify_company,
detect_seniority, score_job, render_email_html, send_email, the HTTP POST of the
requests library) live in modules outside the worker and are modelled as fields
of an environment record, each returning an Except value so that a Python
exception raised by a collaborator is an Except.error carrying str(e).
Observable effects (email dispatches, callback POST attempts) are recorded in an
event trace.  pandas DataFrames are modelled as a record of column-presence
flags plus a list of rows; floats that the claims compare (scores, the 20.0
threshold) are modelled as integers.
-/

namespace JobHunter

/-- Python dict lookup (dict.get): first binding of the key, if any. -/
def dictLookup {β : Type} : List (String × β) → String → Option β
  | [], _ => none
  | (k0, v0) :: rest, k => if k0 = k then some v0 else dictLookup rest k

/-- Python dict assignment d[k] = v: replace the binding in place if the key is
present, otherwise append it. -/
def dictInsert {β : Type} : List (String × β) → String → β → List (String × β)
  | [], k, v => [(k, v)]
  | (k0, v0) :: rest, k, v =>
      if k0 = k then (k0, v) :: rest else (k0, v0) :: dictInsert rest k v

/-- Does the haystack start with the needle? (helper for the substring test) -/
def startsWithChars : List Char → List Char → Bool
  | [], _ => true
  | _ :: _, [] => false
  | a :: as, b :: bs => a = b && startsWithChars as bs

/-- Contiguous-substring test on character lists. -/
def hasSubChars (n : List Char) : List Char → Bool
  | [] => n.isEmpty
  | b :: t => startsWithChars n (b :: t) || hasSubChars n t

/-- Python `needle in hay` on strings. -/
def occursIn (needle hay : String) : Bool :=
  hasSubChars needle.toList hay.toList

/-- Python str.lower() (ASCII; character-wise lowercasing). -/
def pyLower (s : String) : String :=
  String.mk (s.data.map Char.toLower)

/-- Python str.strip() with no argument: drop leading and trailing
whitespace. -/
def pyStrip (s : String) : String :=
  String.mk (((s.data.dropWhile Char.isWhitespace).reverse.dropWhile
    Char.isWhitespace).reverse)

/-! ## Data model (worker/main.py lines 69-101) -/

/-- main.py line 69: Skill model (name, tier). -/
structure Skill where
  name : String
  tier : String
deriving DecidableEq, Repr

/-- main.py line 74: Profile model. -/
structure Profile where
  skills : List Skill
  titles : List String
  keywords : List String
deriving DecidableEq, Repr

/-- main.py line 80: Preferences model. -/
structure Preferences where
  locations : List String
  roles : List String
  hours_old : Int
  results_per_search : Int
deriving DecidableEq, Repr

/-- main.py line 87: ScoringWeights model (floats modelled as rationals;
the claims never compute with them, they are passed opaquely to score_job). -/
structure ScoringWeights where
  companyTier : Rat
  location : Rat
  titleMatch : Rat
  skills : Rat
  sponsorship : Rat
  recency : Rat
deriving DecidableEq, Repr

/-- main.py line 96: ScrapeRequest model. -/
structure ScrapeRequest where
  submissionId : String
  email : String
  profile : Profile
  preferences : Preferences
  scoringWeights : Option ScoringWeights
deriving DecidableEq, Repr

/-- One row of the scraped DataFrame.  Only the columns the worker touches are
modelled; a missing value in the location column (pandas NaN) is none. -/
structure Job where
  company : String
  title : String
  location : Option String
deriving DecidableEq, Repr

/-- A pandas DataFrame as the worker observes it: which of the touched columns
are present, plus the rows.  jobs.empty is rows.isEmpty. -/
structure Frame where
  hasCompany : Bool
  hasTitle : Bool
  hasLocation : Bool
  rows : List Job
deriving DecidableEq, Repr

/-- A row after the worker has added the tier, seniority and score columns
(main.py lines 237-245). -/
structure ScoredJob where
  job : Job
  tier : String
  seniority : String
  score : Int
deriving DecidableEq, Repr

/-- A JSON scalar of the callback payload. -/
inductive JsonVal where
  | str (s : String)
  | num (n : Nat)
deriving DecidableEq, Repr

/-- Which of the two email shapes a dispatch belongs to (call-site tag:
the digest of main.py line 259 vs the empty notice of line 290). -/
inductive EmailKind where
  | digest
  | emptyNotice
deriving DecidableEq, Repr

deriving instance DecidableEq for Except

/-- An observable side effect of one pipeline run. -/
inductive Event where
  | email (kind : EmailKind) (subject : String) (toAddr : String) (ok : Bool)
  | callbackAttempt (payload : List (String × JsonVal)) (result : Except String Unit)
deriving DecidableEq, Repr

/-- The terminal outcome of a run: exactly the (status, jobCount, error)
triple the orchestrator hands to _post_callback. -/
structure Outcome where
  status : String
  jobCount : Nat
  error : Option String
deriving DecidableEq, Repr

/-- The request-shape dict built at main.py lines 203-208. -/
structure ScrapeDefaults where
  sites : List String
  results_wanted : Int
  hours_old : Int
  job_type : Option String
deriving DecidableEq, Repr

/-- The dict convert_profile returns (main.py lines 152-156).  The Python sets
(skills, keywords) are modelled as the underlying lists; they are only passed
opaquely to the scoring collaborator. -/
structure ConvertedProfile where
  skills : List String
  titles : List String
  keywords : List String
deriving DecidableEq, Repr

/-- The shared, process-wide SKILL_TIERS dict (owned by the scrape module,
mutated by convert_profile). -/
abbrev SkillTiers := List (String × Nat)

/-- The external collaborators and environment configuration.  Each fallible
collaborator returns Except String: an error value is a raised Python
exception carrying str(e). -/
structure Env where
  LOCATIONS : List String
  ROLE_SEARCHES : List String
  CALLBACK_URL : String
  today : String
  scrape_all : List String → List String → ScrapeDefaults → Except String Frame
  classify_company : String → Except String String
  detect_seniority : String → Except String String
  score_job : Job → String → String → ConvertedProfile → Option ScoringWeights → Except String Int
  render_email_html : List ScoredJob → Int → Except String String
  send_email : String → String → String → Except String Bool
  http_post : List (String × JsonVal) → Except String Unit

/-! ## Profile conversion (main.py lines 126-156) -/

/-- main.py line 126: TIER_WEIGHTS. -/
def TIER_WEIGHTS : List (String × Nat) :=
  [("core", 5), ("strong", 3), ("peripheral", 1)]

/-- main.py line 133: convert_profile.  Takes the current SKILL_TIERS table and
returns the converted profile together with the updated table (the Python
function mutates the module-level dict in place; here the mutation is explicit
state passing).  TIER_WEIGHTS.get(skill.tier, 1) is dictLookup with default 1. -/
def convert_profile (SKILL_TIERS : SkillTiers) (profile : Profile) :
    ConvertedProfile × SkillTiers :=
  let skill_names := profile.skills.map (fun s => s.name)
  let tiers := profile.skills.foldl
    (fun m s => dictInsert m (pyLower s.name) ((dictLookup TIER_WEIGHTS s.tier).getD 1))
    SKILL_TIERS
  (ConvertedProfile.mk skill_names profile.titles profile.keywords, tiers)

/-! ## Preference resolution (main.py lines 159-179) -/

/-- main.py lines 164-168: loc_map. -/
def loc_map : List (String × String) :=
  [("adelaide", "Adelaide, Australia"),
   ("sydney", "Sydney, Australia"),
   ("melbourne", "Melbourne, Australia")]

/-- main.py line 159: resolve_locations.  LOCATIONS (the system default set,
defined in the external scrape module) is a parameter.  The loop appends, per
entry, either the canonical mapping of the lowercased-and-stripped entry or the
entry itself; the final line is the Python truthiness guard
"resolved if resolved else LOCATIONS". -/
def resolve_locations (LOCATIONS : List String) (preference_locations : List String) :
    List String :=
  if preference_locations.isEmpty then LOCATIONS
  else
    let resolved := preference_locations.foldl
      (fun acc loc =>
        match dictLookup loc_map (pyStrip (pyLower loc)) with
        | some mapped => acc ++ [mapped]
        | none => acc ++ [loc])
      []
    if resolved.isEmpty then LOCATIONS else resolved

/-! ## Geo-filter (main.py lines 224-233) -/

/-- main.py line 226: target_cities (a Python set literal; only membership is
ever used, so the order of this list is immaterial). -/
def target_cities : List String :=
  ["adelaide", "sydney", "melbourne", "remote", "australia"]

/-- The mask of main.py lines 227-228: fillna("") maps a missing location to
the empty string, the text is lowercased, and the row matches if any target
token occurs in it as a substring. -/
def rowMatchesTarget (j : Job) : Bool :=
  target_cities.any (fun c => occursIn c (pyLower (j.location.getD "")))

/-- main.py lines 225-230: keep only matching rows when the location column is
present; otherwise the frame passes through untouched. -/
def geoFilter (jobs : Frame) : Frame :=
  if jobs.hasLocation then
    Frame.mk jobs.hasCompany jobs.hasTitle jobs.hasLocation
      (jobs.rows.filter rowMatchesTarget)
  else jobs

/-! ## Scoring columns (main.py lines 237-245) -/

/-- Apply a fallible collaborator to every element; the first raised exception
propagates (pandas Series.apply evaluates the whole column, aborting on the
first exception). -/
def mapExcept {α β : Type} (g : α → Except String β) : List α → Except String (List β)
  | [] => Except.ok []
  | a :: as =>
    match g a with
    | Except.error e => Except.error e
    | Except.ok b =>
      match mapExcept g as with
      | Except.error e => Except.error e
      | Except.ok bs => Except.ok (b :: bs)

/-- Pair each row with its tier and seniority column entries. -/
def withCols (rows : List Job) (tiers sens : List String) :
    List (Job × String × String) :=
  List.zipWith (fun j ts => (j, ts)) rows (List.zip tiers sens)

/-- Rebuild the scored rows from the row/tier/seniority triples and the score
column. -/
def mkScored (triples : List (Job × String × String)) (scores : List Int) :
    List ScoredJob :=
  List.zipWith (fun t sc => ScoredJob.mk t.fst t.snd.fst t.snd.snd sc) triples scores

/-- main.py lines 237-245: build the tier column (empty string when no company
column), the seniority column (empty string when no title column, then "" is
replaced by "mid"), and then the score column row by row (the score_job row
carries the tier and seniority columns just added).  Matches on each
collaborator result propagate a raised exception; the columns are evaluated
whole, in program order. -/
def scoreColumns (env : Env) (f : Frame) (profile : ConvertedProfile)
    (w : Option ScoringWeights) : Except String (List ScoredJob) :=
  match (if f.hasCompany
         then mapExcept (fun j => env.classify_company j.company) f.rows
         else Except.ok (f.rows.map (fun _ => ""))) with
  | Except.error e => Except.error e
  | Except.ok tiers =>
    match (if f.hasTitle
           then mapExcept (fun j => env.detect_seniority j.title) f.rows
           else Except.ok (f.rows.map (fun _ => ""))) with
    | Except.error e => Except.error e
    | Except.ok sens0 =>
      match mapExcept (fun t => env.score_job t.fst t.snd.fst t.snd.snd profile w)
        (withCols f.rows tiers (sens0.map (fun s => if s = "" then "mid" else s))) with
      | Except.error e => Except.error e
      | Except.ok scores =>
        Except.ok (mkScored
          (withCols f.rows tiers (sens0.map (fun s => if s = "" then "mid" else s)))
          scores)

/-! ## Sorting (main.py line 246) -/

/-- The comparison key of sort_values("score", ...). -/
def scoreLe (a b : ScoredJob) : Prop := a.score ≤ b.score

instance : DecidableRel scoreLe := fun a b => inferInstanceAs (Decidable (a.score ≤ b.score))

instance : IsTotal ScoredJob scoreLe := ⟨fun a b => Int.le_total a.score b.score⟩

instance : IsTrans ScoredJob scoreLe := ⟨fun _ _ _ h1 h2 => le_trans h1 h2⟩

/-- main.py line 246: jobs.sort_values("score", ascending=False).  pandas
implements a descending sort (pandas.core.sorting.nargsort) by reversing the
values together with their positions, running an ascending argsort on the
reversed values, and reversing the resulting indexer again.  With a stable
underlying argsort this double reversal puts equal keys back in their original
order (numpy's default introsort degenerates to a stable insertion sort on
small arrays; the stable behaviour implied by the double-reversal structure is
what is modelled).  The ascending argsort is modelled by the stable
List.insertionSort, applied to the reversed row list and reversed again. -/
def sort_values_desc (rows : List ScoredJob) : List ScoredJob :=
  (List.insertionSort scoreLe rows.reverse).reverse

/-! ## Emails and callback payload (main.py lines 248-294, 297-332) -/

/-- main.py line 291: subject of the empty notice. -/
def emptySubject (today : String) : String :=
  "Job Hunter: No jobs found (" ++ today ++ ")"

/-- main.py lines 282-288: body of the empty notice. -/
def emptyHtml (today : String) : String :=
  "<!DOCTYPE html>\n<html><body style=\"font-family:sans-serif;padding:20px;\">\n" ++
  "<h2>Job Hunter - No Jobs Found</h2>\n" ++
  "<p>Your scrape on " ++ today ++ " returned no results.</p>\n" ++
  "<p>This can happen if the job boards are rate-limiting or if the search criteria are too narrow.</p>\n" ++
  "<p>Try broadening your location or role preferences.</p>\n</body></html>"

/-- main.py lines 254-257: digest subject — the count branch is Python
truthiness of the above-threshold count. -/
def digestSubject (above_threshold : Nat) (today : String) : String :=
  if above_threshold ≠ 0 then
    "Job Hunter: " ++ toString above_threshold ++ " relevant jobs (" ++ today ++ ")"
  else
    "Job Hunter: No strong matches today (" ++ today ++ ")"

/-- main.py lines 310-316: the callback payload dict; the "error" key is added
under Python truthiness of the error argument (present and non-empty). -/
def mkPayload (submissionId status : String) (jobCount : Nat)
    (error : Option String) : List (String × JsonVal) :=
  let payload := [("submissionId", JsonVal.str submissionId),
                  ("status", JsonVal.str status),
                  ("jobCount", JsonVal.num jobCount)]
  match error with
  | some e => if e = "" then payload else payload ++ [("error", JsonVal.str e)]
  | none => payload

/-- main.py lines 297-332: _post_callback, as the list of events it appends to
the trace.  With no CALLBACK_URL it is a silent no-op; otherwise exactly one
POST attempt is recorded, whose network result (env.http_post) is caught by the
inner try/except and therefore never propagates. -/
def _post_callback (env : Env) (submissionId status : String) (jobCount : Nat)
    (error : Option String) : List Event :=
  if env.CALLBACK_URL = "" then []
  else
    let p := mkPayload submissionId status jobCount error
    [Event.callbackAttempt p (env.http_post p)]

/-! ## The orchestrator (main.py lines 184-294) -/

/-- main.py line 200: resolved locations. -/
def scrapeLocations (env : Env) (req : ScrapeRequest) : List String :=
  resolve_locations env.LOCATIONS req.preferences.locations

/-- main.py line 201: search terms (Python truthiness of the roles list). -/
def scrapeTerms (env : Env) (req : ScrapeRequest) : List String :=
  if req.preferences.roles.isEmpty then env.ROLE_SEARCHES else req.preferences.roles

/-- main.py lines 203-208: the defaults dict. -/
def scrapeDefaults (req : ScrapeRequest) : ScrapeDefaults :=
  ScrapeDefaults.mk ["indeed"] req.preferences.results_per_search
    req.preferences.hours_old none

/-- The try-block of run_scrape_job (main.py lines 189-272) after the profile
conversion: returns the outcome (ok) or the raised exception (error), together
with the events recorded before the return or the raise.  Each match on a
collaborator result propagates a raised exception with the trace so far (here
always empty up to the first email, since the emails are the only earlier
events).  An email event is recorded when send_email returns; a send_email call
that raises dispatches nothing and propagates. -/
def pipelineBody (env : Env) (req : ScrapeRequest) (profile : ConvertedProfile) :
    Except String Outcome × List Event :=
  -- line 216: jobs = scrape_all(locations, search_terms, defaults)
  match env.scrape_all (scrapeLocations env req) (scrapeTerms env req) (scrapeDefaults req) with
  | Except.error e => (Except.error e, [])
  | Except.ok jobs =>
    if jobs.rows.isEmpty then
      -- lines 218-222: empty branch — _send_empty_notification, then callback
      match env.send_email (emptySubject env.today) (emptyHtml env.today) req.email with
      | Except.error e => (Except.error e, [])
      | Except.ok b =>
        (Except.ok (Outcome.mk "completed" 0 none),
         Event.email EmailKind.emptyNotice (emptySubject env.today) req.email b
           :: _post_callback env req.submissionId "completed" 0 none)
    else
      -- lines 225-233: geo-filter
      let jobs2 := geoFilter jobs
      -- lines 237-245: tier, seniority and score columns
      match scoreColumns env jobs2 profile req.scoringWeights with
      | Except.error e => (Except.error e, [])
      | Except.ok scored =>
        -- line 246: descending sort
        let sorted := sort_values_desc scored
        -- line 250: email_html = render_email_html(jobs, min_score=20.0)
        match env.render_email_html sorted 20 with
        | Except.error e => (Except.error e, [])
        | Except.ok emailHtml =>
          -- lines 252-257: subject from the above-threshold count
          let above := (sorted.filter (fun r => 20 ≤ r.score)).length
          let subject := digestSubject above env.today
          -- line 259: email_sent = send_email(...) — result only logged
          match env.send_email subject emailHtml req.email with
          | Except.error e => (Except.error e, [])
          | Except.ok sent =>
            -- line 267: _post_callback(submission_id, "completed", len(jobs))
            (Except.ok (Outcome.mk "completed" sorted.length none),
             Event.email EmailKind.digest subject req.email sent
               :: _post_callback env req.submissionId "completed" sorted.length none)

/-- Everything the run leaves behind: the terminal outcome (the triple handed
to _post_callback), the event trace, and the SKILL_TIERS table after the
profile conversion. -/
structure RunResult where
  outcome : Outcome
  trace : List Event
  tiers : SkillTiers
deriving DecidableEq, Repr

/-- main.py line 184: run_scrape_job.  The profile conversion (line 191) runs
first; the try-block is pipelineBody; the except clause (lines 274-276)
converts a raised exception into the failed outcome and posts it. -/
def run_scrape_job (env : Env) (tiers0 : SkillTiers) (req : ScrapeRequest) : RunResult :=
  let conv := convert_profile tiers0 req.profile
  match pipelineBody env req conv.fst with
  | (Except.ok o, ev) => RunResult.mk o ev conv.snd
  | (Except.error e, ev) =>
      RunResult.mk (Outcome.mk "failed" 0 (some e))
        (ev ++ _post_callback env req.submissionId "failed" 0 (some e)) conv.snd

/-! ## Helper lemmas about the dictionary operations -/

theorem dictLookup_dictInsert {β : Type} (m : List (String × β)) (k : String) (v : β)
    (q : String) :
    dictLookup (dictInsert m k v) q = if k = q then some v else dictLookup m q := by
  induction m with
  | nil =>
    by_cases h : k = q <;> simp [dictInsert, dictLookup, h]
  | cons hd tl ih =>
    obtain ⟨k0, v0⟩ := hd
    by_cases h0 : k0 = k
    · subst h0
      by_cases h : k0 = q <;> simp [dictInsert, dictLookup, h]
    · by_cases h : k0 = q
      · subst h
        have : ¬ k = k0 := fun hk => h0 hk.symm
        simp [dictInsert, dictLookup, h0, this]
      · simp [dictInsert, dictLookup, h0, h, ih]

/-! ## Claim C4: the TierWeight table after profile adaptation -/

/-- The weight expression of main.py line 149: TIER_WEIGHTS.get(skill.tier, 1). -/
def tierWeightOf (tier : String) : Nat :=
  (dictLookup TIER_WEIGHTS tier).getD 1

/-- Statement-side characterization: the weight of the last skill in the list
whose lowercased name is the given key, if any. -/
def lastTierWeight (skills : List Skill) (k : String) : Option Nat :=
  skills.foldl (fun acc s => if pyLower s.name = k then some (tierWeightOf s.tier) else acc)
    none

theorem foldl_lastTierWeight_shift (k : String) (skills : List Skill) (a : Option Nat) :
    skills.foldl
      (fun acc s => if pyLower s.name = k then some (tierWeightOf s.tier) else acc) a =
    match lastTierWeight skills k with
    | some w => some w
    | none => a := by
  induction skills generalizing a with
  | nil => simp [lastTierWeight]
  | cons s rest ih =>
    show rest.foldl _ _ = _
    rw [ih]
    have hrw : lastTierWeight (s :: rest) k =
        match lastTierWeight rest k with
        | some w => some w
        | none => if pyLower s.name = k then some (tierWeightOf s.tier) else none := by
      show rest.foldl _ _ = _
      rw [ih]
    rw [hrw]
    cases lastTierWeight rest k with
    | some w => rfl
    | none =>
      by_cases h : pyLower s.name = k <;> simp [h]

theorem convert_profile_lookup (tiers0 : SkillTiers) (p : Profile) (k : String) :
    dictLookup (convert_profile tiers0 p).snd k =
      match lastTierWeight p.skills k with
      | some w => some w
      | none => dictLookup tiers0 k := by
  show dictLookup (p.skills.foldl _ tiers0) k = _
  induction p.skills generalizing tiers0 with
  | nil => simp [lastTierWeight]
  | cons s rest ih =>
    show dictLookup (rest.foldl _ _) k = _
    rw [ih]
    have hrw : lastTierWeight (s :: rest) k =
        match lastTierWeight rest k with
        | some w => some w
        | none => if pyLower s.name = k then some (tierWeightOf s.tier) else none := by
      show rest.foldl _ _ = _
      rw [foldl_lastTierWeight_shift]
    rw [hrw]
    cases lastTierWeight rest k with
    | some w => rfl
    | none =>
      rw [dictLookup_dictInsert]
      by_cases h : pyLower s.name = k <;> simp [h, tierWeightOf]

/-- The weight the claim assigns to a tier string: 5 for core, 3 for strong,
1 for peripheral and 1 for anything unrecognized. -/
def claimedTierWeight (tier : String) : Nat :=
  if tier = "core" then 5
  else if tier = "strong" then 3
  else if tier = "peripheral" then 1
  else 1

/-- A profile naming the same lowercased skill twice with different tiers. -/
def dupProfile : Profile :=
  Profile.mk [Skill.mk "Python" "core", Skill.mk "python" "peripheral"] [] []

/-- Claim C4 as stated is false: for the profile listing skill "Python" with
tier core and then "python" with tier peripheral, the table maps "python" to 1,
not to the weight 5 the claim requires for the core-tier skill. -/
theorem claim_C4_counterexample :
    ¬ (∀ s ∈ dupProfile.skills,
        dictLookup (convert_profile [] dupProfile).snd (pyLower s.name) =
          some (claimedTierWeight s.tier)) := by
  decide

/-- Claim C4 (amended): after adaptation the table maps each lowercased skill
name present in the profile to the weight of the LAST skill in the profile with
that lowercased name, where the weight of a tier is 5 for core, 3 for strong,
1 for peripheral and 1 for any unrecognized tier string; keys the profile does
not mention keep their prior entries (so successive profiles overwrite prior
entries exactly for the lowercased names they mention). -/
theorem claim_C4_amended (tiers0 : SkillTiers) (p : Profile) (k : String) :
    (tierWeightOf "core" = 5 ∧ tierWeightOf "strong" = 3 ∧ tierWeightOf "peripheral" = 1 ∧
      ∀ t, t ≠ "core" → t ≠ "strong" → t ≠ "peripheral" → tierWeightOf t = 1) ∧
    dictLookup (convert_profile tiers0 p).snd k =
      (match lastTierWeight p.skills k with
       | some w => some w
       | none => dictLookup tiers0 k) := by
  refine ⟨⟨rfl, rfl, rfl, ?_⟩, convert_profile_lookup tiers0 p k⟩
  intro t h1 h2 h3
  have e1 : ¬ ("core" = t) := fun h => h1 h.symm
  have e2 : ¬ ("strong" = t) := fun h => h2 h.symm
  have e3 : ¬ ("peripheral" = t) := fun h => h3 h.symm
  simp [tierWeightOf, TIER_WEIGHTS, dictLookup, e1, e2, e3]

/-- Witness for the amended claim C4: on the duplicate-name profile the table
holds the last skill's weight, and an unrecognized tier weighs 1. -/
theorem claim_C4_amended_witness :
    dictLookup (convert_profile [("old", 9)] dupProfile).snd "python" = some 1 ∧
    tierWeightOf "executive" = 1 := by
  constructor
  · have h := (claim_C4_amended [("old", 9)] dupProfile "python").2
    rw [h]
    decide
  · exact (claim_C4_amended [] dupProfile "python").1.2.2.2 "executive"
      (by decide) (by decide) (by decide)

/-! ## Claim C5: the descending sort -/

/-- The per-entry resolution of the loop body at main.py lines 171-177:
canonical mapping of the lowercased-and-stripped entry, else the entry itself. -/
def resolveEntry (loc : String) : String :=
  match dictLookup loc_map (pyStrip (pyLower loc)) with
  | some mapped => mapped
  | none => loc

theorem resolve_foldl_eq_map (l : List String) (acc : List String) :
    l.foldl
      (fun acc loc =>
        match dictLookup loc_map (pyStrip (pyLower loc)) with
        | some mapped => acc ++ [mapped]
        | none => acc ++ [loc])
      acc = acc ++ l.map resolveEntry := by
  induction l generalizing acc with
  | nil => simp
  | cons x xs ih =>
    show xs.foldl _ _ = _
    rw [ih]
    unfold resolveEntry
    cases h : dictLookup loc_map (pyStrip (pyLower x)) with
    | some mapped => simp [h]
    | none => simp [h]

theorem resolve_locations_nonempty (LOCATIONS : List String) (input : List String)
    (hne : input ≠ []) :
    resolve_locations LOCATIONS input = input.map resolveEntry := by
  unfold resolve_locations
  have h1 : input.isEmpty = false := by
    cases input with
    | nil => exact absurd rfl hne
    | cons a l => rfl
  rw [h1]
  simp only [Bool.false_eq_true, if_false]
  rw [resolve_foldl_eq_map input []]
  have h2 : (([] : List String) ++ input.map resolveEntry).isEmpty = false := by
    cases input with
    | nil => exact absurd rfl hne
    | cons a l => rfl
  rw [h2]
  simp

/-- Modelled from the spec: the system default location set LOCATIONS lives in
the external scrape module (not under src); the spec names Adelaide, Sydney and
Melbourne as the canonical target cities, so the default set is taken to be
their full forms.  Only the fact that it differs from a list of empty strings
matters below. -/
def LOCATIONS_model : List String :=
  ["Adelaide, Australia", "Sydney, Australia", "Melbourne, Australia"]

/-- Claim C7 as stated is false: on the non-empty input whose every entry
resolves to the empty string, the resolver returns the per-entry results, not
the system default set — a non-empty Python list of empty strings is truthy,
so the fallback guard does not fire. -/
theorem claim_C7_counterexample :
    resolve_locations LOCATIONS_model ["", ""] = ["", ""] ∧
    (∀ loc ∈ ([""] : List String), resolveEntry loc = "") ∧
    ["", ""] ≠ LOCATIONS_model := by
  decide

/-- Claim C7 (amended): for every non-empty list of location strings the
resolver returns exactly the per-entry results (one output per entry), whatever
they resolve to; the fall-back to the system default set is unreachable for
non-empty input, because the resolved list always has one entry per input
entry and the guard tests list emptiness, not entry emptiness. -/
theorem claim_C7_amended (LOCATIONS : List String) (input : List String)
    (hne : input ≠ []) :
    resolve_locations LOCATIONS input = input.map resolveEntry ∧
    (resolve_locations LOCATIONS input).length = input.length := by
  have h := resolve_locations_nonempty LOCATIONS input hne
  exact ⟨h, by rw [h, List.length_map]⟩

/-- Witness for the amended claim C7 at the all-empty-entries input. -/
theorem claim_C7_amended_witness :
    resolve_locations LOCATIONS_model ["", ""] = (["", ""] : List String).map resolveEntry ∧
    (resolve_locations LOCATIONS_model ["", ""]).length = 2 :=
  claim_C7_amended LOCATIONS_model ["", ""] (by decide)

/-- Claim C8: an empty locations list yields the system default set unchanged;
a non-empty list is resolved entry by entry — each entry is lowercased and
trimmed for the canonical-table lookup, a hit is replaced by the mapped full
form, and a miss passes the original entry through unchanged (no error). -/
theorem claim_C8 (LOCATIONS : List String) (input : List String) :
    (input = [] → resolve_locations LOCATIONS input = LOCATIONS) ∧
    (input ≠ [] → resolve_locations LOCATIONS input = input.map resolveEntry) := by
  constructor
  · intro h
    subst h
    rfl
  · exact resolve_locations_nonempty LOCATIONS input

/-- Witness for claim C8: the default set comes back for an empty list, and
"Sydney" (needing lowercasing) maps to its canonical full form. -/
theorem claim_C8_witness :
    resolve_locations LOCATIONS_model [] = LOCATIONS_model ∧
    resolve_locations LOCATIONS_model ["Sydney"] = ["Sydney, Australia"] := by
  constructor
  · exact (claim_C8 LOCATIONS_model []).1 rfl
  · have h := (claim_C8 LOCATIONS_model ["Sydney"]).2 (by decide)
    rw [h]
    decide

/-! ## Claim C9: the geo-filter -/

theorem startsWithChars_iff (n h : List Char) :
    startsWithChars n h = true ↔ ∃ rest, h = n ++ rest := by
  induction n generalizing h with
  | nil => simp [startsWithChars]
  | cons a as ih =>
    cases h with
    | nil =>
      simp [startsWithChars]
    | cons b bs =>
      rw [startsWithChars]
      simp only [Bool.and_eq_true, decide_eq_true_eq, ih]
      constructor
      · rintro ⟨hab, rest, hrest⟩
        exact ⟨rest, by rw [hab, hrest]; rfl⟩
      · rintro ⟨rest, hrest⟩
        rw [List.cons_append] at hrest
        injection hrest with h1 h2
        exact ⟨h1.symm, rest, h2⟩

theorem hasSubChars_iff (n h : List Char) :
    hasSubChars n h = true ↔ ∃ pre post, h = pre ++ n ++ post := by
  induction h with
  | nil =>
    constructor
    · intro hh
      have : n = [] := by
        cases n with
        | nil => rfl
        | cons a as => simp [hasSubChars, List.isEmpty] at hh
      exact ⟨[], [], by simp [this]⟩
    · rintro ⟨pre, post, hp⟩
      have h1 : pre = [] ∧ n ++ post = [] := by
        cases pre with
        | nil => exact ⟨rfl, hp.symm⟩
        | cons a as => simp at hp
      have h2 : n = [] := by
        rcases h1 with ⟨_, h⟩
        cases n with
        | nil => rfl
        | cons a as => simp at h
      simp [hasSubChars, h2, List.isEmpty]
  | cons b t ih =>
    rw [hasSubChars]
    simp only [Bool.or_eq_true, startsWithChars_iff, ih]
    constructor
    · rintro (⟨rest, hr⟩ | ⟨pre, post, hp⟩)
      · exact ⟨[], rest, by simp [hr]⟩
      · exact ⟨b :: pre, post, by simp [hp]⟩
    · rintro ⟨pre, post, hp⟩
      cases pre with
      | nil =>
        left
        exact ⟨post, by simpa using hp⟩
      | cons c cs =>
        right
        rw [List.cons_append, List.cons_append] at hp
        injection hp with h1 h2
        exact ⟨cs, post, by simpa using h2⟩

theorem occursIn_iff (needle hay : String) :
    occursIn needle hay = true ↔
      ∃ pre post, hay.toList = pre ++ needle.toList ++ post :=
  hasSubChars_iff needle.toList hay.toList

/-- Claim C9: when the location column is present the geo-filter keeps exactly
the rows whose (lowercased, NaN-as-empty) location text contains one of the
five target tokens as a substring — the mask is equivalent to that existential
substring property — and when the column is absent the frame passes through
unchanged. -/
theorem claim_C9 (f : Frame) :
    (f.hasLocation = true →
       (geoFilter f).rows = f.rows.filter rowMatchesTarget ∧
       ∀ j : Job, (rowMatchesTarget j = true ↔
          ∃ c ∈ target_cities, ∃ pre post,
            (pyLower (j.location.getD "")).toList = pre ++ c.toList ++ post)) ∧
    (f.hasLocation = false → geoFilter f = f) := by
  constructor
  · intro h
    constructor
    · simp [geoFilter, h]
    · intro j
      unfold rowMatchesTarget
      rw [List.any_eq_true]
      constructor
      · rintro ⟨c, hc, hocc⟩
        exact ⟨c, hc, (occursIn_iff c _).mp hocc⟩
      · rintro ⟨c, hc, hsub⟩
        exact ⟨c, hc, (occursIn_iff c _).mpr hsub⟩
  · intro h
    simp [geoFilter, h]

/-- Frame with a location column used by the claim C9 witness. -/
def geoFrame : Frame :=
  Frame.mk true true true
    [Job.mk "Acme" "Engineer" (some "Sydney CBD"), Job.mk "B" "T" none,
     Job.mk "C" "T" (some "Auckland, NZ")]

/-- Witness for claim C9 at a concrete frame with a location column. -/
theorem claim_C9_witness :
    (geoFilter geoFrame).rows = geoFrame.rows.filter rowMatchesTarget ∧
    ∀ j : Job, (rowMatchesTarget j = true ↔
       ∃ c ∈ target_cities, ∃ pre post,
         (pyLower (j.location.getD "")).toList = pre ++ c.toList ++ post) :=
  (claim_C9 geoFrame).1 rfl

/-! ## Claim C10: the error key of the callback payload -/

/-- Claim C10: the payload of a callback POST carries the "error" key exactly
when the error string is non-empty (Python truthiness); in particular a failed
outcome whose exception message is the empty string is reported with the three
keys submissionId, status, jobCount and no "error" field. -/
theorem claim_C10 (sid st : String) (n : Nat) (e : String) :
    ((mkPayload sid st n (some e)).map Prod.fst =
      if e = "" then ["submissionId", "status", "jobCount"]
      else ["submissionId", "status", "jobCount", "error"]) ∧
    (e = "" → mkPayload sid st n (some e) =
      [("submissionId", JsonVal.str sid), ("status", JsonVal.str st),
       ("jobCount", JsonVal.num n)]) := by
  constructor
  · unfold mkPayload
    by_cases h : e = "" <;> simp [h]
  · intro h
    simp [mkPayload, h]

/-- Witness for claim C10: a failed payload with an empty message has no
"error" key. -/
theorem claim_C10_witness :
    mkPayload "sub-1" "failed" 0 (some "") =
      [("submissionId", JsonVal.str "sub-1"), ("status", JsonVal.str "failed"),
       ("jobCount", JsonVal.num 0)] :=
  (claim_C10 "sub-1" "failed" 0 "").2 rfl

/-! ## Helper notions and lemmas about the orchestrator -/

/-- Discriminator: is the event an email dispatch? -/
def isEmailEvent : Event → Bool
  | Event.email _ _ _ _ => true
  | Event.callbackAttempt _ _ => false

/-- Discriminator: is the event a callback POST attempt? -/
def isCallbackEvent : Event → Bool
  | Event.email _ _ _ _ => false
  | Event.callbackAttempt _ _ => true

/-- Replace only the outbound-HTTP collaborator of the environment. -/
def setHttpPost (env : Env)
    (hp : List (String × JsonVal) → Except String Unit) : Env :=
  Env.mk env.LOCATIONS env.ROLE_SEARCHES env.CALLBACK_URL env.today env.scrape_all
    env.classify_company env.detect_seniority env.score_job env.render_email_html
    env.send_email hp

/-- Replace only the geo/scoring-stage collaborators (classify_company,
detect_seniority, score_job, render_email_html) of the environment. -/
def setScoringCollabs (env : Env)
    (cc : String → Except String String) (ds : String → Except String String)
    (sj : Job → String → String → ConvertedProfile → Option ScoringWeights → Except String Int)
    (re : List ScoredJob → Int → Except String String) : Env :=
  Env.mk env.LOCATIONS env.ROLE_SEARCHES env.CALLBACK_URL env.today env.scrape_all
    cc ds sj re env.send_email env.http_post

@[simp] theorem scrapeLocations_setHttpPost (env : Env) (hp : List (String × JsonVal) → Except String Unit) (req : ScrapeRequest) : scrapeLocations (setHttpPost env hp) req = scrapeLocations env req := rfl

@[simp] theorem scrapeTerms_setHttpPost (env : Env) (hp : List (String × JsonVal) → Except String Unit) (req : ScrapeRequest) : scrapeTerms (setHttpPost env hp) req = scrapeTerms env req := rfl

@[simp] theorem scrape_all_setHttpPost (env : Env) (hp : List (String × JsonVal) → Except String Unit) : (setHttpPost env hp).scrape_all = env.scrape_all := rfl

@[simp] theorem send_email_setHttpPost (env : Env) (hp : List (String × JsonVal) → Except String Unit) : (setHttpPost env hp).send_email = env.send_email := rfl

@[simp] theorem render_setHttpPost (env : Env) (hp : List (String × JsonVal) → Except String Unit) : (setHttpPost env hp).render_email_html = env.render_email_html := rfl

@[simp] theorem today_setHttpPost (env : Env) (hp : List (String × JsonVal) → Except String Unit) : (setHttpPost env hp).today = env.today := rfl

@[simp] theorem scoreColumns_setHttpPost (env : Env) (hp : List (String × JsonVal) → Except String Unit) (f : Frame) (profile : ConvertedProfile) (w : Option ScoringWeights) : scoreColumns (setHttpPost env hp) f profile w = scoreColumns env f profile w := rfl

@[simp] theorem scrapeLocations_setScoringCollabs (env : Env) (cc ds : String → Except String String) (sj : Job → String → String → ConvertedProfile → Option ScoringWeights → Except String Int) (re : List ScoredJob → Int → Except String String) (req : ScrapeRequest) : scrapeLocations (setScoringCollabs env cc ds sj re) req = scrapeLocations env req := rfl

@[simp] theorem scrapeTerms_setScoringCollabs (env : Env) (cc ds : String → Except String String) (sj : Job → String → String → ConvertedProfile → Option ScoringWeights → Except String Int) (re : List ScoredJob → Int → Except String String) (req : ScrapeRequest) : scrapeTerms (setScoringCollabs env cc ds sj re) req = scrapeTerms env req := rfl

@[simp] theorem scrape_all_setScoringCollabs (env : Env) (cc ds : String → Except String String) (sj : Job → String → String → ConvertedProfile → Option ScoringWeights → Except String Int) (re : List ScoredJob → Int → Except String String) : (setScoringCollabs env cc ds sj re).scrape_all = env.scrape_all := rfl

@[simp] theorem send_email_setScoringCollabs (env : Env) (cc ds : String → Except String String) (sj : Job → String → String → ConvertedProfile → Option ScoringWeights → Except String Int) (re : List ScoredJob → Int → Except String String) : (setScoringCollabs env cc ds sj re).send_email = env.send_email := rfl

@[simp] theorem today_setScoringCollabs (env : Env) (cc ds : String → Except String String) (sj : Job → String → String → ConvertedProfile → Option ScoringWeights → Except String Int) (re : List ScoredJob → Int → Except String String) : (setScoringCollabs env cc ds sj re).today = env.today := rfl

@[simp] theorem post_callback_setScoringCollabs (env : Env) (cc ds : String → Except String String) (sj : Job → String → String → ConvertedProfile → Option ScoringWeights → Except String Int) (re : List ScoredJob → Int → Except String String) (sid st : String) (n : Nat) (err : Option String) : _post_callback (setScoringCollabs env cc ds sj re) sid st n err = _post_callback env sid st n err := rfl

/-- The match form of run_scrape_job (the let is zeta-reduced). -/
theorem run_scrape_job_eq (env : Env) (tiers0 : SkillTiers) (req : ScrapeRequest) :
    run_scrape_job env tiers0 req =
      match pipelineBody env req (convert_profile tiers0 req.profile).fst with
      | (Except.ok o, ev) =>
          RunResult.mk o ev (convert_profile tiers0 req.profile).snd
      | (Except.error e, ev) =>
          RunResult.mk (Outcome.mk "failed" 0 (some e))
            (ev ++ _post_callback env req.submissionId "failed" 0 (some e))
            (convert_profile tiers0 req.profile).snd := rfl

/-- The outcome of a run is determined by the Except component of the
try-block alone. -/
theorem run_scrape_job_outcome (env : Env) (tiers0 : SkillTiers) (req : ScrapeRequest) :
    (run_scrape_job env tiers0 req).outcome =
      match (pipelineBody env req (convert_profile tiers0 req.profile).fst).fst with
      | Except.ok o => o
      | Except.error e => Outcome.mk "failed" 0 (some e) := by
  rcases hb : pipelineBody env req (convert_profile tiers0 req.profile).fst with ⟨r, ev⟩
  rw [run_scrape_job_eq, hb]
  cases r <;> rfl

/-- Every run of the try-block either completes — with a single email dispatch
event followed by the callback events for the completed outcome — or raises,
in which case no event was recorded before the raise. -/
theorem pipelineBody_shape (env : Env) (req : ScrapeRequest) (profile : ConvertedProfile) :
    (∃ k s b n, pipelineBody env req profile =
       (Except.ok (Outcome.mk "completed" n none),
        Event.email k s req.email b
          :: _post_callback env req.submissionId "completed" n none)) ∨
    (∃ e, pipelineBody env req profile = (Except.error e, [])) := by
  rcases hs : env.scrape_all (scrapeLocations env req) (scrapeTerms env req) (scrapeDefaults req) with e | jobs
  · exact Or.inr ⟨e, by simp [pipelineBody, hs]⟩
  · cases hje : jobs.rows.isEmpty with
    | true =>
      rcases hsend : env.send_email (emptySubject env.today) (emptyHtml env.today) req.email with e | b
      · exact Or.inr ⟨e, by simp [pipelineBody, hs, hje, hsend]⟩
      · exact Or.inl ⟨EmailKind.emptyNotice, emptySubject env.today, b, 0,
          by simp [pipelineBody, hs, hje, hsend]⟩
    | false =>
      rcases hsc : scoreColumns env (geoFilter jobs) profile req.scoringWeights with e | scored
      · exact Or.inr ⟨e, by simp [pipelineBody, hs, hje, hsc]⟩
      · rcases hre : env.render_email_html (sort_values_desc scored) 20 with e | html
        · exact Or.inr ⟨e, by simp [pipelineBody, hs, hje, hsc, hre]⟩
        · rcases hsend : env.send_email
              (digestSubject ((sort_values_desc scored).filter (fun r => 20 ≤ r.score)).length env.today)
              html req.email with e | sent
          · exact Or.inr ⟨e, by simp [pipelineBody, hs, hje, hsc, hre, hsend]⟩
          · exact Or.inl ⟨EmailKind.digest,
              digestSubject ((sort_values_desc scored).filter (fun r => 20 ≤ r.score)).length env.today,
              sent, (sort_values_desc scored).length,
              by simp [pipelineBody, hs, hje, hsc, hre, hsend]⟩

/-- A raise inside the try-block leaves an empty event trace: no email and no
callback attempt was recorded before the exception. -/
theorem pipelineBody_error (env : Env) (req : ScrapeRequest) (profile : ConvertedProfile)
    (e : String) (ev : List Event)
    (h : pipelineBody env req profile = (Except.error e, ev)) : ev = [] := by
  rcases pipelineBody_shape env req profile with ⟨k, s, b, n, hB⟩ | ⟨e2, hB⟩
  · rw [hB] at h
    exact absurd (congrArg Prod.fst h) (by simp)
  · have h2 := hB.symm.trans h
    injection h2 with h3 h4
    exact h4.symm

/-- The callback reporter records one POST attempt when an endpoint is
configured and none otherwise. -/
theorem countP_post_callback (env : Env) (sid st : String) (n : Nat) (err : Option String) :
    (_post_callback env sid st n err).countP isCallbackEvent =
      if env.CALLBACK_URL = "" then 0 else 1 := by
  unfold _post_callback
  split <;> simp [isCallbackEvent]

/-- The callback reporter never dispatches an email. -/
theorem no_email_post_callback (env : Env) (sid st : String) (n : Nat) (err : Option String) :
    ∀ x ∈ _post_callback env sid st n err, isEmailEvent x = false := by
  intro x hx
  unfold _post_callback at hx
  split at hx
  · simp at hx
  · simp at hx
    subst hx
    rfl

/-- The events of the callback reporter are callback attempts only. -/
theorem all_callback_post_callback (env : Env) (sid st : String) (n : Nat) (err : Option String) :
    ∀ x ∈ _post_callback env sid st n err, isCallbackEvent x = true := by
  intro x hx
  unfold _post_callback at hx
  split at hx
  · simp at hx
  · simp at hx
    subst hx
    rfl

/-- The try-block never consults the outbound-HTTP collaborator for its
Except component: http_post only shows up inside recorded callback events. -/
theorem pipelineBody_setHttpPost_fst (env : Env)
    (hp : List (String × JsonVal) → Except String Unit)
    (req : ScrapeRequest) (profile : ConvertedProfile) :
    (pipelineBody (setHttpPost env hp) req profile).fst =
      (pipelineBody env req profile).fst := by
  rcases hs : env.scrape_all (scrapeLocations env req) (scrapeTerms env req) (scrapeDefaults req) with e | jobs
  · simp [pipelineBody, hs]
  · cases hje : jobs.rows.isEmpty with
    | true =>
      rcases hsend : env.send_email (emptySubject env.today) (emptyHtml env.today) req.email with e | b <;>
        simp [pipelineBody, hs, hje, hsend]
    | false =>
      rcases hsc : scoreColumns env (geoFilter jobs) profile req.scoringWeights with e | scored
      · simp [pipelineBody, hs, hje, hsc]
      · rcases hre : env.render_email_html (sort_values_desc scored) 20 with e | html
        · simp [pipelineBody, hs, hje, hsc, hre]
        · rcases hsend : env.send_email
              (digestSubject ((sort_values_desc scored).filter (fun r => 20 ≤ r.score)).length env.today)
              html req.email with e | sent <;>
            simp [pipelineBody, hs, hje, hsc, hre, hsend]

/-! ## Claim C1: the empty-result branch -/

/-- Claim C1: when the scrape collaborator returns an empty result set (and the
email collaborator does not itself raise), the run reports the terminal outcome
completed with job count 0, its whole trace is the empty-result notice email
followed by the callback events for (completed, 0) — so the digest is never
sent — and the run is bit-for-bit independent of the geo/scoring/sorting
collaborators, which are never consulted. -/
theorem claim_C1 (env : Env) (tiers0 : SkillTiers) (req : ScrapeRequest) (f : Frame)
    (hsend : ∀ s h2 t, ∃ b, env.send_email s h2 t = Except.ok b)
    (hscrape : env.scrape_all (scrapeLocations env req) (scrapeTerms env req)
      (scrapeDefaults req) = Except.ok f)
    (hrows : f.rows = []) :
    (run_scrape_job env tiers0 req).outcome = Outcome.mk "completed" 0 none ∧
    (∃ b, (run_scrape_job env tiers0 req).trace =
       Event.email EmailKind.emptyNotice (emptySubject env.today) req.email b
         :: _post_callback env req.submissionId "completed" 0 none) ∧
    (∀ cc ds sj re, run_scrape_job (setScoringCollabs env cc ds sj re) tiers0 req =
       run_scrape_job env tiers0 req) := by
  obtain ⟨b, hb⟩ := hsend (emptySubject env.today) (emptyHtml env.today) req.email
  have hbody : pipelineBody env req (convert_profile tiers0 req.profile).fst =
      (Except.ok (Outcome.mk "completed" 0 none),
       Event.email EmailKind.emptyNotice (emptySubject env.today) req.email b
         :: _post_callback env req.submissionId "completed" 0 none) := by
    simp [pipelineBody, hscrape, hrows, hb]
  have hrun := run_scrape_job_eq env tiers0 req
  rw [hbody] at hrun
  refine ⟨by rw [hrun], ⟨b, by rw [hrun]⟩, ?_⟩
  intro cc ds sj re
  have hbody2 : pipelineBody (setScoringCollabs env cc ds sj re) req
      (convert_profile tiers0 req.profile).fst =
      (Except.ok (Outcome.mk "completed" 0 none),
       Event.email EmailKind.emptyNotice (emptySubject env.today) req.email b
         :: _post_callback env req.submissionId "completed" 0 none) := by
    simp [pipelineBody, hscrape, hrows, hb]
  rw [run_scrape_job_eq, hbody2, run_scrape_job_eq, hbody]

/-- Environment whose scrape collaborator finds nothing and whose email
collaborator succeeds. -/
def envEmpty : Env :=
  Env.mk ["Adelaide, Australia"] ["software engineer"] "http:cb.example" "01 Jan 2026"
    (fun _ _ _ => Except.ok (Frame.mk true true true []))
    (fun _ => Except.ok "") (fun _ => Except.ok "")
    (fun _ _ _ _ _ => Except.ok 0) (fun _ _ => Except.ok "")
    (fun _ _ _ => Except.ok true) (fun _ => Except.ok ())

/-- Request used by the orchestrator witnesses. -/
def sampleReq : ScrapeRequest :=
  ScrapeRequest.mk "sub-1" "user@example.com"
    (Profile.mk [Skill.mk "python" "core"] ["Engineer"] ["ml"])
    (Preferences.mk [] [] 72 30) none

/-- Witness for claim C1 at an environment whose scrape returns zero rows. -/
theorem claim_C1_witness :
    (run_scrape_job envEmpty [] sampleReq).outcome = Outcome.mk "completed" 0 none ∧
    (∃ b, (run_scrape_job envEmpty [] sampleReq).trace =
       Event.email EmailKind.emptyNotice (emptySubject envEmpty.today) sampleReq.email b
         :: _post_callback envEmpty sampleReq.submissionId "completed" 0 none) ∧
    (∀ cc ds sj re, run_scrape_job (setScoringCollabs envEmpty cc ds sj re) [] sampleReq =
       run_scrape_job envEmpty [] sampleReq) :=
  claim_C1 envEmpty [] sampleReq (Frame.mk true true true [])
    (fun _ _ _ => ⟨true, rfl⟩) rfl rfl

/-! ## Claim C2: the top-level exception handler -/

/-- Claim C2: when any step of the try-block raises, the exception is caught at
the top level of the orchestrator: the outcome is failed with job count 0 and
the exception message as the error field, nothing had been dispatched before
the raise (the pre-exception trace is empty), the whole trace is just the
failed-callback events, and no email event appears in it. -/
theorem claim_C2 (env : Env) (tiers0 : SkillTiers) (req : ScrapeRequest)
    (e : String) (ev : List Event)
    (h : pipelineBody env req (convert_profile tiers0 req.profile).fst =
      (Except.error e, ev)) :
    (run_scrape_job env tiers0 req).outcome = Outcome.mk "failed" 0 (some e) ∧
    ev = [] ∧
    (run_scrape_job env tiers0 req).trace =
      _post_callback env req.submissionId "failed" 0 (some e) ∧
    (∀ x ∈ (run_scrape_job env tiers0 req).trace, isEmailEvent x = false) := by
  have hev : ev = [] := pipelineBody_error env req _ e ev h
  subst hev
  have hrun := run_scrape_job_eq env tiers0 req
  rw [h] at hrun
  refine ⟨by rw [hrun], rfl, by rw [hrun]; simp, ?_⟩
  rw [hrun]
  simpa using no_email_post_callback env req.submissionId "failed" 0 (some e)

/-- Environment whose scoring collaborator raises "boom" on a non-empty
scrape. -/
def envBoom : Env :=
  Env.mk ["Adelaide, Australia"] ["software engineer"] "http:cb.example" "01 Jan 2026"
    (fun _ _ _ => Except.ok (Frame.mk true true true
      [Job.mk "Acme" "Engineer" (some "Sydney CBD")]))
    (fun _ => Except.ok "tier2") (fun _ => Except.ok "")
    (fun _ _ _ _ _ => Except.error "boom") (fun _ _ => Except.ok "")
    (fun _ _ _ => Except.ok true) (fun _ => Except.ok ())

/-- Witness for claim C2 at an environment whose scoring step raises. -/
theorem claim_C2_witness :
    (run_scrape_job envBoom [] sampleReq).outcome = Outcome.mk "failed" 0 (some "boom") ∧
    ([] : List Event) = [] ∧
    (run_scrape_job envBoom [] sampleReq).trace =
      _post_callback envBoom sampleReq.submissionId "failed" 0 (some "boom") ∧
    (∀ x ∈ (run_scrape_job envBoom [] sampleReq).trace, isEmailEvent x = false) :=
  claim_C2 envBoom [] sampleReq "boom" [] (by decide)

/-! ## Claim C3: exactly one callback attempt, after notification -/

/-- Claim C3: every run makes exactly one callback POST attempt when an
endpoint is configured and none otherwise (a silent no-op); the callback events
form the tail of the trace — everything before them is non-callback, and on
completed outcomes what precedes them is exactly the one notification email —
and the outcome is unchanged under any replacement of the outbound-HTTP
collaborator, so a failing callback POST cannot change the already-determined
outcome. -/
theorem claim_C3 (env : Env) (tiers0 : SkillTiers) (req : ScrapeRequest) :
    (run_scrape_job env tiers0 req).trace.countP isCallbackEvent =
      (if env.CALLBACK_URL = "" then 0 else 1) ∧
    (∃ pre,
      (run_scrape_job env tiers0 req).trace =
        pre ++ _post_callback env req.submissionId
          (run_scrape_job env tiers0 req).outcome.status
          (run_scrape_job env tiers0 req).outcome.jobCount
          (run_scrape_job env tiers0 req).outcome.error ∧
      (∀ x ∈ pre, isCallbackEvent x = false) ∧
      ((run_scrape_job env tiers0 req).outcome.status = "completed" →
        ∃ k s b, pre = [Event.email k s req.email b])) ∧
    (∀ hp, (run_scrape_job (setHttpPost env hp) tiers0 req).outcome =
      (run_scrape_job env tiers0 req).outcome) := by
  refine ⟨?_, ?_, ?_⟩
  case refine_3 =>
    intro hp
    rw [run_scrape_job_outcome, run_scrape_job_outcome, pipelineBody_setHttpPost_fst]
  all_goals
    rcases pipelineBody_shape env req (convert_profile tiers0 req.profile).fst with
      ⟨k, s, b, n, hB⟩ | ⟨e, hB⟩
  case refine_1.inl =>
    have hrun : run_scrape_job env tiers0 req =
        RunResult.mk (Outcome.mk "completed" n none)
          (Event.email k s req.email b
            :: _post_callback env req.submissionId "completed" n none)
          (convert_profile tiers0 req.profile).snd := by
      rw [run_scrape_job_eq, hB]
    rw [hrun]
    simp [List.countP_cons, isCallbackEvent, countP_post_callback]
  case refine_1.inr =>
    have hrun : run_scrape_job env tiers0 req =
        RunResult.mk (Outcome.mk "failed" 0 (some e))
          ([] ++ _post_callback env req.submissionId "failed" 0 (some e))
          (convert_profile tiers0 req.profile).snd := by
      rw [run_scrape_job_eq, hB]
    rw [hrun]
    simp [countP_post_callback]
  case refine_2.inl =>
    have hrun : run_scrape_job env tiers0 req =
        RunResult.mk (Outcome.mk "completed" n none)
          (Event.email k s req.email b
            :: _post_callback env req.submissionId "completed" n none)
          (convert_profile tiers0 req.profile).snd := by
      rw [run_scrape_job_eq, hB]
    refine ⟨[Event.email k s req.email b], ?_, ?_, ?_⟩
    · simp [hrun]
    · intro x hx
      have hx2 : x = Event.email k s req.email b := by simpa using hx
      rw [hx2]
      rfl
    · intro _
      exact ⟨k, s, b, rfl⟩
  case refine_2.inr =>
    have hrun : run_scrape_job env tiers0 req =
        RunResult.mk (Outcome.mk "failed" 0 (some e))
          ([] ++ _post_callback env req.submissionId "failed" 0 (some e))
          (convert_profile tiers0 req.profile).snd := by
      rw [run_scrape_job_eq, hB]
    refine ⟨[], ?_, by simp, ?_⟩
    · simp [hrun]
    · intro hc
      rw [hrun] at hc
      simp at hc

/-- Witness for claim C3 at a configured endpoint and a completed run. -/
theorem claim_C3_witness :
    (run_scrape_job envEmpty [] sampleReq).trace.countP isCallbackEvent = 1 ∧
    (∃ pre,
      (run_scrape_job envEmpty [] sampleReq).trace =
        pre ++ _post_callback envEmpty sampleReq.submissionId
          (run_scrape_job envEmpty [] sampleReq).outcome.status
          (run_scrape_job envEmpty [] sampleReq).outcome.jobCount
          (run_scrape_job envEmpty [] sampleReq).outcome.error ∧
      (∀ x ∈ pre, isCallbackEvent x = false) ∧
      ((run_scrape_job envEmpty [] sampleReq).outcome.status = "completed" →
        ∃ k s b, pre = [Event.email k s sampleReq.email b])) ∧
    (∀ hp, (run_scrape_job (setHttpPost envEmpty hp) [] sampleReq).outcome =
      (run_scrape_job envEmpty [] sampleReq).outcome) := by
  have h := claim_C3 envEmpty [] sampleReq
  exact ⟨by simpa using h.1, h.2.1, h.2.2⟩

/-! ## Claim C6: email dispatch failure does not change the outcome -/

theorem mapExcept_ok {α β : Type} (g : α → Except String β) (l : List α)
    (h : ∀ a ∈ l, ∃ b, g a = Except.ok b) :
    ∃ l2, mapExcept g l = Except.ok l2 ∧ l2.length = l.length := by
  induction l with
  | nil => exact ⟨[], rfl, rfl⟩
  | cons a as ih =>
    obtain ⟨b, hb⟩ := h a (List.mem_cons_self a as)
    obtain ⟨l2, hl2, hlen⟩ := ih (fun x hx => h x (List.mem_cons_of_mem a hx))
    exact ⟨b :: l2, by simp [mapExcept, hb, hl2], by simp [hlen]⟩

theorem withCols_length (rows : List Job) (tiers sens : List String)
    (h1 : tiers.length = rows.length) (h2 : sens.length = rows.length) :
    (withCols rows tiers sens).length = rows.length := by
  simp [withCols, h1, h2]

theorem mkScored_length (triples : List (Job × String × String)) (scores : List Int)
    (h : scores.length = triples.length) :
    (mkScored triples scores).length = triples.length := by
  simp [mkScored, h]

theorem scoreColumns_ok (env : Env) (f : Frame) (profile : ConvertedProfile)
    (w : Option ScoringWeights)
    (hc : ∀ s, ∃ r, env.classify_company s = Except.ok r)
    (hd : ∀ s, ∃ r, env.detect_seniority s = Except.ok r)
    (hsj : ∀ j t s p w2, ∃ n, env.score_job j t s p w2 = Except.ok n) :
    ∃ scored, scoreColumns env f profile w = Except.ok scored ∧
      scored.length = f.rows.length := by
  obtain ⟨tiers, htiers, hlen1⟩ :
      ∃ tiers, (if f.hasCompany
         then mapExcept (fun j => env.classify_company j.company) f.rows
         else Except.ok (f.rows.map (fun _ => ""))) = Except.ok tiers ∧
        tiers.length = f.rows.length := by
    cases hcp : f.hasCompany with
    | true =>
      obtain ⟨l2, h1, h2⟩ := mapExcept_ok (fun j => env.classify_company j.company)
        f.rows (fun a _ => hc a.company)
      exact ⟨l2, by simpa using h1, h2⟩
    | false => exact ⟨f.rows.map (fun _ => ""), by simp, by simp⟩
  obtain ⟨sens0, hsens0, hlen2⟩ :
      ∃ sens0, (if f.hasTitle
         then mapExcept (fun j => env.detect_seniority j.title) f.rows
         else Except.ok (f.rows.map (fun _ => ""))) = Except.ok sens0 ∧
        sens0.length = f.rows.length := by
    cases hti : f.hasTitle with
    | true =>
      obtain ⟨l2, h1, h2⟩ := mapExcept_ok (fun j => env.detect_seniority j.title)
        f.rows (fun a _ => hd a.title)
      exact ⟨l2, by simpa using h1, h2⟩
    | false => exact ⟨f.rows.map (fun _ => ""), by simp, by simp⟩
  have hwlen : (withCols f.rows tiers
      (sens0.map (fun s => if s = "" then "mid" else s))).length = f.rows.length :=
    withCols_length f.rows tiers _ hlen1 (by simpa using hlen2)
  obtain ⟨scores, hscores, hlen3⟩ := mapExcept_ok
    (fun t => env.score_job t.fst t.snd.fst t.snd.snd profile w)
    (withCols f.rows tiers (sens0.map (fun s => if s = "" then "mid" else s)))
    (fun t _ => hsj t.fst t.snd.fst t.snd.snd profile w)
  refine ⟨mkScored (withCols f.rows tiers (sens0.map (fun s => if s = "" then "mid" else s))) scores,
    ?_, ?_⟩
  · simp only [scoreColumns, htiers, hsens0, hscores]
  · rw [mkScored_length _ _ (by rw [hlen3]), hwlen]

/-- Claim C6: on a non-empty scrape result, when the remaining collaborators
return normally but the email collaborator signals dispatch failure (returns
false), the reported outcome is still completed, carrying the computed job
count (the number of rows surviving the geo-filter) and no error. -/
theorem claim_C6 (env : Env) (tiers0 : SkillTiers) (req : ScrapeRequest) (f : Frame)
    (hscrape : env.scrape_all (scrapeLocations env req) (scrapeTerms env req)
      (scrapeDefaults req) = Except.ok f)
    (hrows : f.rows ≠ [])
    (hc : ∀ s, ∃ r, env.classify_company s = Except.ok r)
    (hd : ∀ s, ∃ r, env.detect_seniority s = Except.ok r)
    (hsj : ∀ j t s p w2, ∃ n, env.score_job j t s p w2 = Except.ok n)
    (hrender : ∀ l m, ∃ s, env.render_email_html l m = Except.ok s)
    (hsend : ∀ s h2 t, env.send_email s h2 t = Except.ok false) :
    (run_scrape_job env tiers0 req).outcome =
      Outcome.mk "completed" (geoFilter f).rows.length none := by
  obtain ⟨scored, hsc, hslen⟩ := scoreColumns_ok env (geoFilter f)
    (convert_profile tiers0 req.profile).fst req.scoringWeights hc hd hsj
  obtain ⟨html, hre⟩ := hrender (sort_values_desc scored) 20
  have hje : f.rows.isEmpty = false := by
    rcases hl : f.rows with _ | ⟨a, l⟩
    · exact absurd hl hrows
    · rfl
  have hlen : (sort_values_desc scored).length = (geoFilter f).rows.length := by
    rw [sort_values_desc, List.length_reverse, List.length_insertionSort,
      List.length_reverse, hslen]
  rw [run_scrape_job_outcome]
  simp [pipelineBody, hscrape, hje, hsc, hre, hsend, hlen]

/-- Environment with one surviving row whose email dispatch fails. -/
def envSendFail : Env :=
  Env.mk ["Adelaide, Australia"] ["software engineer"] "http:cb.example" "01 Jan 2026"
    (fun _ _ _ => Except.ok (Frame.mk true true true
      [Job.mk "Acme" "Engineer" (some "Sydney CBD")]))
    (fun _ => Except.ok "tier2") (fun _ => Except.ok "")
    (fun _ _ _ _ _ => Except.ok 42) (fun _ _ => Except.ok "")
    (fun _ _ _ => Except.ok false) (fun _ => Except.ok ())

/-- Witness for claim C6: the email dispatch fails yet the run reports
completed with the surviving row count. -/
theorem claim_C6_witness :
    (run_scrape_job envSendFail [] sampleReq).outcome =
      Outcome.mk "completed"
        (geoFilter (Frame.mk true true true
          [Job.mk "Acme" "Engineer" (some "Sydney CBD")])).rows.length none :=
  claim_C6 envSendFail [] sampleReq
    (Frame.mk true true true [Job.mk "Acme" "Engineer" (some "Sydney CBD")])
    rfl (by decide) (fun s => ⟨"tier2", rfl⟩) (fun s => ⟨"", rfl⟩)
    (fun j t s p w2 => ⟨42, rfl⟩) (fun l m => ⟨"", rfl⟩) (fun s h2 t => rfl)

end JobHunter
